import Mathlib

/-!
Verification development for the Rocket.Chat → Slack migration script
(scripts/map_rc_to_slack.py).  Python strings are modelled as lists of
characters, Python dictionaries with known keys as structures whose optional
keys are `Option` fields (a key that is absent, or present with value `None`,
is `none`).  Timestamps are modelled as the epoch-second integers that
`int(x.timestamp())` produces.  Fallible evaluation (a Python expression that
can raise) is modelled in `Except`.
-/

/-- A Python string: a sequence of unicode characters. -/
abbrev Str := List Char

/-- Coerce a Lean string literal to the `Str` model. -/
def str (s : String) : Str := s.data

/-- Python `d.get(k, default)` on a modelled optional field. -/
def pyGet {α : Type} (v : Option α) (default : α) : α := v.getD default

/-- Python `d[k]` on a modelled optional field: raises `KeyError` when the
key is absent. -/
def pySubscript {α : Type} (v : Option α) : Except Str α :=
  match v with
  | some a => Except.ok a
  | none => Except.error (str "KeyError")

/-- The character class `[a-z0-9_-]` of the slug regular expression. -/
def slugAllowed (c : Char) : Bool :=
  ('a' ≤ c && c ≤ 'z') || ('0' ≤ c && c ≤ '9') || c = '_' || c = '-'

/-- `slug(name)` from the source: lowercase the name, replace every character
outside `[a-z0-9_-]` by `-`, and truncate to 80 characters
(`re.sub(..., name.lower())[:80]`). -/
def slug (name : Str) : Str :=
  (((name.map Char.toLower).map (fun c => if slugAllowed c then c else '-')).take 80)

/-- Python string `<` comparison: lexicographic by code point. -/
def strLe : Str → Str → Bool
  | [], _ => true
  | _ :: _, [] => false
  | a :: as, b :: bs => if a < b then true else if a = b then strLe as bs else false

/-- Python `sorted` on a list of strings: stable sort, lexicographic order. -/
def pySorted (l : List Str) : List Str := List.mergeSort l strLe

/-- Python `sep.join(parts)`. -/
def pyJoin (sep : Str) (parts : List Str) : Str := List.intercalate sep parts

/-- A Rocket.Chat room document (collection `rocketchat_room`).  `t` is the
room kind tag, `name` and `usernames` are optional keys, `ts` is the creation
timestamp in epoch seconds, `archived` an optional flag. -/
structure RCRoom where
  _id : Str
  t : Str
  name : Option Str
  usernames : Option (List Str)
  ts : Int
  archived : Option Bool
  deriving DecidableEq

/-- A Slack room entry as built by `make_room_entry`. -/
structure RoomEntry where
  id : Str
  name : Str
  created : Int
  is_archived : Bool
  is_private : Bool
  deriving DecidableEq

/-- `make_room_entry(rc_room, is_private)` from the source: rooms without a
`name` fall back to the sorted usernames joined by `-`, else to
`dm-<room id>`; the resulting display name is slugged in every branch. -/
def make_room_entry (rc_room : RCRoom) (is_private : Bool) : RoomEntry :=
  let room_name :=
    match rc_room.name with
    | none =>
      match rc_room.usernames with
      | some usernames => pyJoin (str "-") (pySorted usernames)
      | none => str "dm-" ++ rc_room._id
    | some n => n
  { id := 'C' :: rc_room._id
    name := slug room_name
    created := rc_room.ts
    is_archived := pyGet rc_room.archived false
    is_private := is_private }

/-- The value stored in `room_map` for one room (Phase 3, lines 344-353):
a named room maps to `slug(name)`, a room with usernames to the slug of the
sorted join, and the fallback maps to `dm-<room id>` with no slugging. -/
def room_map_value (r : RCRoom) : Str :=
  match r.name with
  | some n => slug n
  | none =>
    match r.usernames with
    | some usernames => slug (pyJoin (str "-") (pySorted usernames))
    | none => str "dm-" ++ r._id

/-- `text.replace('"', '""')`: a one-character pattern, so the replacement
acts character by character. -/
def escapeQuotes (text : Str) : Str :=
  text.flatMap (fun c => if c = '"' then ['"', '"'] else [c])

/-- `escape_for_csv(text)` from the source (`None` maps to the empty
string, otherwise quotes are doubled). -/
def escape_for_csv (text : Option Str) : Str :=
  match text with
  | none => []
  | some t => escapeQuotes t

/-- The `[Part i/N] ` marker prepended to each split segment. -/
def partIndicator (i n : Nat) : Str :=
  str "[Part " ++ str (toString i) ++ str "/" ++ str (toString n) ++ str "] "

/-- `prepare_message_for_csv(text, max_length)` from the source.  A falsy
text (absent or empty) gives one empty part; otherwise quotes are doubled,
a short text is one part, and a long text is cut into
`ceil(len/max_length)` segments of at most `max_length` characters, each
segment prefixed by its part indicator after the cut. -/
def prepare_message_for_csv (text : Option Str) (max_length : Nat) : List Str :=
  match text with
  | none => [[]]
  | some t =>
    if t = [] then [[]]
    else
      let escaped_text := escapeQuotes t
      if escaped_text.length ≤ max_length then [escaped_text]
      else
        let total_length := escaped_text.length
        let num_parts := (total_length + max_length - 1) / max_length
        (List.range num_parts).map (fun i =>
          let segment := (escaped_text.drop (i * max_length)).take max_length
          partIndicator (i + 1) num_parts ++ segment)

/-- A rich-mention markup value, the inner `value` object of a
`descriptionMd` item. -/
structure MdValue where
  value : Option Str
  deriving DecidableEq

/-- One `descriptionMd` item of an attachment. -/
structure MdItem where
  type : Option Str
  value : Option MdValue
  deriving DecidableEq

/-- One attachment of a message. -/
structure Attachment where
  description : Option Str
  descriptionMd : Option (List MdItem)
  title : Option Str
  deriving DecidableEq

/-- A file record, from the `file` key or one element of `files`. -/
structure FileInfo where
  name : Option Str
  deriving DecidableEq

/-- One reaction record: the value attached to an emoji key. -/
structure Reaction where
  usernames : Option (List Str)
  deriving DecidableEq

/-- The embedded author object `u` of a message. -/
structure UserRef where
  _id : Option Str
  username : Option Str
  deriving DecidableEq

/-- A Rocket.Chat message document (collection `rocketchat_message`).
Reactions keep their insertion order as an association list. -/
structure RCMessage where
  rid : Option Str
  u : Option UserRef
  ts : Option Int
  msg : Option Str
  mentions : Option (List Str)
  attachments : Option (List Attachment)
  file : Option FileInfo
  files : Option (List FileInfo)
  reactions : Option (List (Str × Reaction))
  deriving DecidableEq

/-- Python `s.replace(pat, rep)` for a non-empty pattern: replace
non-overlapping occurrences left to right.  (The source only calls this with
patterns starting with `@`, never empty.) -/
def replaceSub (pat rep : Str) (s : Str) : Str :=
  if h : pat = [] then s
  else
    match s with
    | [] => []
    | c :: rest =>
      if pat.isPrefixOf (c :: rest) then rep ++ replaceSub pat rep ((c :: rest).drop pat.length)
      else c :: replaceSub pat rep rest
termination_by s.length
decreasing_by
  · have hp : 1 ≤ pat.length := by
      cases pat with
      | nil => exact absurd rfl h
      | cons a l => simp
    simp only [List.length_drop, List.length_cons]
    omega
  · simp

/-- Python `sub in s`: substring containment. -/
def containsSub (pat : Str) : Str → Bool
  | [] => pat.isPrefixOf []
  | c :: rest => pat.isPrefixOf (c :: rest) || containsSub pat rest

/-- The body of the inner `descriptionMd` loop: a `MENTION_USER` item
replaces `@<user value>` by itself in the description (the source performs
this identity replacement literally). -/
def mdStep (desc : Str) (md_item : MdItem) : Str :=
  if md_item.type = some (str "MENTION_USER") then
    let user_value :=
      match md_item.value with
      | some v => pyGet v.value []
      | none => []
    replaceSub (str "@" ++ user_value) (str "@" ++ user_value) desc
  else desc

/-- The body of the attachment loop of `process_message_content`: a truthy
description appends an `[Attachment: ...]` line (after running the
`descriptionMd` identity replacements), else a present title appends an
`[Attachment: <title>]` line. -/
def attachmentStep (content : Str) (attachment : Attachment) : Str :=
  if (pyGet attachment.description []) ≠ [] ∧ attachment.description.isSome then
    let content := if content ≠ [] then content ++ ['\n'] else content
    let desc := pyGet attachment.description []
    let desc :=
      match attachment.descriptionMd with
      | some mds => mds.foldl mdStep desc
      | none => desc
    content ++ str "[Attachment: " ++ desc ++ str "]"
  else if attachment.title.isSome then
    let content := if content ≠ [] then content ++ ['\n'] else content
    content ++ str "[Attachment: " ++ pyGet attachment.title [] ++ str "]"
  else content

/-- The body of the `files` loop: names containing `thumb-` are skipped,
every other file appends a `[File: <name>]` line. -/
def fileStep (content : Str) (file_info : FileInfo) : Str :=
  if ¬ containsSub (str "thumb-") (pyGet file_info.name []) then
    (if content ≠ [] then content ++ ['\n'] else content)
      ++ str "[File: " ++ pyGet file_info.name [] ++ str "]"
  else content

/-- The body of the reactions loop: a reaction with a `usernames` key adds
`<emoji> (<user1>, <user2>, ...)` to the collected reaction texts. -/
def reactionStep (reactions_text : List Str) (p : Str × Reaction) : List Str :=
  match p.2.usernames with
  | some usernames =>
    reactions_text ++ [p.1 ++ str " (" ++ pyJoin (str ", ") usernames ++ str ")"]
  | none => reactions_text

/-- `process_message_content(msg)` from the source: base text, then
attachment lines, then file lines (a present `file` key wins over `files`),
then one reactions line, each appended after a newline when prior content is
non-empty. -/
def process_message_content (msg : RCMessage) : Str :=
  let content := pyGet msg.msg []
  let content :=
    match msg.attachments with
    | some attachments =>
      if attachments ≠ [] then attachments.foldl attachmentStep content else content
    | none => content
  let content :=
    match msg.file with
    | some file_info =>
      (if content ≠ [] then content ++ ['\n'] else content)
        ++ str "[File: " ++ pyGet file_info.name [] ++ str "]"
    | none =>
      match msg.files with
      | some files => if files ≠ [] then files.foldl fileStep content else content
      | none => content
  let content :=
    match msg.reactions with
    | some reactions =>
      if reactions ≠ [] then
        let reactions_text := reactions.foldl reactionStep []
        if reactions_text ≠ [] then
          (if content ≠ [] then content ++ ['\n'] else content)
            ++ str "[Reactions: " ++ pyJoin (str " | ") reactions_text ++ str "]"
        else content
      else content
    | none => content
  content

/-- The reactions loop body with the `data['usernames']` subscript
instrumented in `Except`, exactly as guarded in the source. -/
def reactionStepE (reactions_text : List Str) (p : Str × Reaction) : Except Str (List Str) := do
  if p.2.usernames.isSome then
    let usernames ← pySubscript p.2.usernames
    pure (reactions_text ++ [p.1 ++ str " (" ++ pyJoin (str ", ") usernames ++ str ")"])
  else pure reactions_text

/-- The attachment loop body with every Python subscript (`attachment[...]`)
instrumented in `Except`, exactly as guarded in the source. -/
def attachmentStepE (content : Str) (attachment : Attachment) : Except Str Str := do
  if attachment.description.isSome then
    let d ← pySubscript attachment.description
    if d ≠ [] then
      let content := if content ≠ [] then content ++ ['\n'] else content
      let desc := pyGet attachment.description []
      let desc ←
        (if attachment.descriptionMd.isSome then do
          let mds ← pySubscript attachment.descriptionMd
          pure (mds.foldl mdStep desc)
        else pure desc)
      pure (content ++ str "[Attachment: " ++ desc ++ str "]")
    else if attachment.title.isSome then
      let content := if content ≠ [] then content ++ ['\n'] else content
      pure (content ++ str "[Attachment: " ++ pyGet attachment.title [] ++ str "]")
    else pure content
  else if attachment.title.isSome then
    let content := if content ≠ [] then content ++ ['\n'] else content
    pure (content ++ str "[Attachment: " ++ pyGet attachment.title [] ++ str "]")
  else pure content

/-- The attachments block of `process_message_content` with its subscripts
instrumented in `Except` (the argument is the `attachments` field of the
message). -/
def attachmentsBlockE (v : Option (List Attachment)) (content : Str) : Except Str Str := do
  if v.isSome then
    let attachments ← pySubscript v
    if attachments ≠ [] then attachments.foldlM attachmentStepE content
    else pure content
  else pure content

/-- The file/files block of `process_message_content` with its subscripts
instrumented in `Except` (the arguments are the `file` and `files` fields
of the message). -/
def filesBlockE (vf : Option FileInfo) (vfs : Option (List FileInfo)) (content : Str) :
    Except Str Str := do
  if vf.isSome then
    let file_info ← pySubscript vf
    pure ((if content ≠ [] then content ++ ['\n'] else content)
      ++ str "[File: " ++ pyGet file_info.name [] ++ str "]")
  else if vfs.isSome then
    let files ← pySubscript vfs
    if files ≠ [] then
      pure (files.foldl fileStep content)
    else pure content
  else pure content

/-- The reactions block of `process_message_content` with its subscripts
instrumented in `Except` (the argument is the `reactions` field of the
message). -/
def reactionsBlockE (v : Option (List (Str × Reaction))) (content : Str) : Except Str Str := do
  if v.isSome then
    let reactions ← pySubscript v
    if reactions ≠ [] then do
      let reactions_text ← reactions.foldlM reactionStepE []
      if reactions_text ≠ [] then
        pure ((if content ≠ [] then content ++ ['\n'] else content)
          ++ str "[Reactions: " ++ pyJoin (str " | ") reactions_text ++ str "]")
      else pure content
    else pure content
  else pure content

/-- `process_message_content` with every Python subscript (`msg[...]`,
`attachment[...]`, `data[...]`) instrumented in `Except`, so that a raising
evaluation would surface as an error value. -/
def process_message_contentE (msg : RCMessage) : Except Str Str := do
  let content := pyGet msg.msg []
  let content ← attachmentsBlockE msg.attachments content
  let content ← filesBlockE msg.file msg.files content
  let content ← reactionsBlockE msg.reactions content
  pure content

/-- One row of a channel CSV file, before CSV encoding. -/
structure CsvRow where
  timestamp : Int
  channel : Str
  username : Str
  text : Str
  deriving DecidableEq

/-- The Phase 3 loop body for one message (lines 392-429): messages missing
`rid`, `u` or `ts` produce no row; otherwise the channel comes from
`room_map` (fallback `unknown-<rid>`), the author from `username_map`
(fallback to the embedded username, then `unknown-user`), and each part of
the prepared text becomes one row. -/
def csvRowsForMessage (room_map username_map : List (Str × Str)) (msg : RCMessage) : List CsvRow :=
  match msg.rid, msg.u, msg.ts with
  | some rid, some u, some ts =>
    let timestamp := ts
    let channel := (room_map.lookup rid).getD (str "unknown-" ++ rid)
    let user_identifier :=
      match u._id with
      | some user_id => (username_map.lookup user_id).getD (pyGet u.username (str "unknown-user"))
      | none => pyGet u.username (str "unknown-user")
    let text := process_message_content msg
    let text_parts := prepare_message_for_csv (some text) 4000
    text_parts.map (fun part => ⟨timestamp, channel, user_identifier, part⟩)
  | _, _, _ => []

/-- The whole Phase 3 loop over the sorted corpus: the emitted rows in
order, paired with the final `message_count` (one increment per row). -/
def csvPhase (room_map username_map : List (Str × Str)) (messages : List RCMessage) : List CsvRow × Nat :=
  messages.foldl (fun acc msg =>
    let rows := csvRowsForMessage room_map username_map msg
    (acc.1 ++ rows, acc.2 + rows.length)) ([], 0)

/-- `csv.QUOTE_MINIMAL`: a field is quoted iff it contains the delimiter,
the quote character, or a line-terminator character. -/
def csvNeedsQuoting (field : Str) : Bool :=
  field.any (fun c => c = ',' || c = '"' || c = '\r' || c = '\n')

/-- A quoted CSV field: wrapped in quotes, with embedded quotes doubled by
the writer. -/
def csvQuoted (field : Str) : Str :=
  '"' :: field.flatMap (fun c => if c = '"' then ['"', '"'] else [c]) ++ ['"']

/-- One field as `csv.writer(..., quoting=csv.QUOTE_MINIMAL)` emits it. -/
def csvRenderField (field : Str) : Str :=
  if csvNeedsQuoting field then csvQuoted field else field

/-- One data row as `writer.writerow([timestamp, channel, username, part])`
emits it (the integer timestamp is rendered by `str`), without the line
terminator. -/
def csvRenderRow (row : CsvRow) : Str :=
  pyJoin (str ",")
    ([str (toString row.timestamp), row.channel, row.username, row.text].map csvRenderField)

/-- The sort key of the Phase 3 message sort (line 384):
`x.get('ts') if 'ts' in x else datetime.datetime.min`.  The module imports
`from datetime import datetime`, so the name `datetime.datetime` does not
exist and evaluating the fallback raises `AttributeError`. -/
def messageSortKeyE (x : RCMessage) : Except Str Int :=
  match x.ts with
  | some ts => Except.ok ts
  | none => Except.error (str "AttributeError: type object datetime has no attribute datetime")

/-- Hexadecimal digit characters as `json.dumps` emits them. -/
def hexDigit (n : Nat) : Char := (str "0123456789abcdef").getD n '0'

/-- Four hexadecimal digits of a code unit for a `\uXXXX` escape. -/
def hex4 (n : Nat) : Str :=
  [hexDigit (n / 4096 % 16), hexDigit (n / 256 % 16), hexDigit (n / 16 % 16), hexDigit (n % 16)]

/-- The escape of one character inside a `json.dumps` string literal with
the default `ensure_ascii=True`: the two-character escapes for quote,
backslash and common control characters, `\uXXXX` for other control and all
non-ASCII characters (surrogate pairs above the basic plane). -/
def jsonEscapeChar (c : Char) : Str :=
  if c = '"' then str "\\\""
  else if c = '\\' then str "\\\\"
  else if c = '\n' then str "\\n"
  else if c = '\r' then str "\\r"
  else if c = '\t' then str "\\t"
  else if c.val = 8 then str "\\b"
  else if c.val = 12 then str "\\f"
  else if c.val < 32 then str "\\u" ++ hex4 c.val.toNat
  else if c.val < 127 then [c]
  else if c.val < 65536 then str "\\u" ++ hex4 c.val.toNat
  else str "\\u" ++ hex4 (55296 + (c.val.toNat - 65536) / 1024)
    ++ str "\\u" ++ hex4 (56320 + (c.val.toNat - 65536) % 1024)

/-- A `json.dumps` string literal. -/
def jsonStringLit (s : Str) : Str := '"' :: s.flatMap jsonEscapeChar ++ ['"']

/-- `json.dumps` of the Phase 4 record object, with the default separators. -/
def jsonDumps (timestamp : Int) (channel username text : Str) : Str :=
  str "\x7b\"timestamp\": " ++ str (toString timestamp)
    ++ str ", \"channel\": " ++ jsonStringLit channel
    ++ str ", \"username\": " ++ jsonStringLit username
    ++ str ", \"text\": " ++ jsonStringLit text ++ str "\x7d"

/-- The Phase 4 loop body for one message of a chunk: a message missing
`rid`, `u` or `ts` adds no record; otherwise the channel comes from
`room_map` (fallback `unknown-<rid>`), the user identifier prefers
`email_map` over `username_map` (then the embedded username, then
`unknown-user`), and the serialized record is appended. -/
def jsonLineStep (room_map username_map email_map : List (Str × Str))
    (json_lines : List Str) (msg : RCMessage) : List Str :=
  match msg.rid, msg.u, msg.ts with
  | some rid, some u, some ts =>
    let channel := (room_map.lookup rid).getD (str "unknown-" ++ rid)
    let user_identifier :=
      match u._id with
      | some user_id =>
        match email_map.lookup user_id with
        | some e => e
        | none => (username_map.lookup user_id).getD (pyGet u.username (str "unknown-user"))
      | none => pyGet u.username (str "unknown-user")
    let text := process_message_content msg
    json_lines ++ [jsonDumps ts channel user_identifier text]
  | _, _, _ => json_lines

/-- The Phase 4 loop over one retrieved chunk (lines 459-489): the list of
serialized records of the valid messages, paired with the amount added to
`processed_messages`, which is the length of the whole retrieved chunk. -/
def jsonRecordsForChunk (room_map username_map email_map : List (Str × Str))
    (message_chunk : List RCMessage) : List Str × Nat :=
  (message_chunk.foldl (jsonLineStep room_map username_map email_map) [],
   message_chunk.length)

/-- The separator the source writes between records of a chunk file: the
Python literal is the two-character sequence backslash-`n` (written as the
escaped string in the source), not a newline. -/
def jsonChunkSep : Str := ['\\', 'n']

/-- The content of one `messages_<n>.json` file: the records joined by the
separator above, with one trailing separator. -/
def jsonChunkFileContent (json_lines : List Str) : Str :=
  pyJoin jsonChunkSep json_lines ++ jsonChunkSep

/-- The file name of the chunk starting at `chunk_start`. -/
def jsonChunkFileName (chunk_start chunk_size : Nat) : Str :=
  str "messages_" ++ str (toString (chunk_start / chunk_size + 1)) ++ str ".json"

/-- A message document with room, author and timestamp present whose content
is just the text body `t` (all optional content fields absent). -/
def msgOfText (t : Str) : RCMessage :=
  { rid := some (str "R")
    u := some { _id := some (str "u1"), username := some (str "bob") }
    ts := some 42
    msg := some t
    mentions := none
    attachments := none
    file := none
    files := none
    reactions := none }

/-- A direct-message room with neither name nor usernames, with an
upper-case source id. -/
def dmRoomA : RCRoom := ⟨str "A", str "d", none, none, 0, none⟩

/-- A public room carrying a name. -/
def genRoom : RCRoom := ⟨str "R1", str "c", some (str "General"), none, 1700000000, none⟩

/-- A message lacking its timestamp key. -/
def msgNoTs : RCMessage :=
  { rid := some (str "R")
    u := some ⟨some (str "u1"), some (str "bob")⟩
    ts := none
    msg := some (str "hello")
    mentions := none
    attachments := none
    file := none
    files := none
    reactions := none }

/-- A message with room, author and timestamp but no text body at all. -/
def emptyMsg : RCMessage :=
  { rid := some (str "R")
    u := some ⟨some (str "u1"), some (str "bob")⟩
    ts := some 42
    msg := none
    mentions := none
    attachments := none
    file := none
    files := none
    reactions := none }

/-! ### Helper lemmas -/

theorem escapeQuotes_nil : escapeQuotes [] = [] := rfl

theorem escapeQuotes_cons (c : Char) (l : Str) :
    escapeQuotes (c :: l) = (if c = '"' then ['"', '"'] else [c]) ++ escapeQuotes l := by
  simp [escapeQuotes]

theorem escapeQuotes_replicate_of_ne (n : Nat) (c : Char) (hc : c ≠ '"') :
    escapeQuotes (List.replicate n c) = List.replicate n c := by
  induction n with
  | zero => rfl
  | succ n ih =>
    rw [List.replicate_succ, escapeQuotes_cons, if_neg hc, ih]
    simp [List.replicate_succ]

theorem escapeQuotes_replicate_quote (n : Nat) :
    escapeQuotes (List.replicate n '"') = List.replicate (2 * n) '"' := by
  induction n with
  | zero => rfl
  | succ n ih =>
    rw [List.replicate_succ, escapeQuotes_cons, if_pos rfl, ih,
      show 2 * (n + 1) = 2 + 2 * n by omega, List.replicate_add]
    rfl

theorem chunks_flatten (l : Str) (k n : Nat) :
    ((List.range n).map (fun i => (l.drop (i * k)).take k)).flatten = l.take (n * k) := by
  induction n with
  | zero => simp
  | succ n ih =>
    rw [List.range_succ, List.map_append, List.flatten_append, ih]
    simp only [List.map_cons, List.map_nil, List.flatten_cons, List.flatten_nil, List.append_nil]
    rw [Nat.succ_mul, List.take_add]

theorem le_ceil_mul (L k : Nat) (hk : 0 < k) : L ≤ ((L + k - 1) / k) * k := by
  obtain ⟨q, hq⟩ : ∃ q, (L + k - 1) / k = q := ⟨_, rfl⟩
  obtain ⟨r, hr⟩ : ∃ r, (L + k - 1) % k = r := ⟨_, rfl⟩
  have h := Nat.div_add_mod (L + k - 1) k
  have h2 : (L + k - 1) % k < k := Nat.mod_lt _ hk
  rw [hq, hr] at h
  rw [hr] at h2
  rw [hq, Nat.mul_comm]
  obtain ⟨m, hm⟩ : ∃ m, k * q = m := ⟨_, rfl⟩
  rw [hm] at h ⊢
  omega

/-- Unfolding of `prepare_message_for_csv` in the oversized case. -/
theorem prepare_of_long (t : Str) (k : Nat) (hlong : k < (escapeQuotes t).length) :
    prepare_message_for_csv (some t) k =
      (List.range (((escapeQuotes t).length + k - 1) / k)).map (fun i =>
        partIndicator (i + 1) (((escapeQuotes t).length + k - 1) / k)
          ++ ((escapeQuotes t).drop (i * k)).take k) := by
  have ht : ¬ t = [] := by
    intro h
    rw [h] at hlong
    simp [escapeQuotes] at hlong
  have hle : ¬ (escapeQuotes t).length ≤ k := by omega
  simp only [prepare_message_for_csv, if_neg ht, if_neg hle]

/-- Unfolding of `prepare_message_for_csv` when the escaped text fits. -/
theorem prepare_of_short (t : Str) (k : Nat) (ht : t ≠ []) (hle : (escapeQuotes t).length ≤ k) :
    prepare_message_for_csv (some t) k = [escapeQuotes t] := by
  simp only [prepare_message_for_csv, if_neg ht, if_pos hle]

theorem process_msgOfText (t : Str) : process_message_content (msgOfText t) = t := rfl

/-- Claim C5: for a message text whose escaped length L exceeds the
threshold k, the splitter produces exactly `(L + k - 1) / k` parts (the
ceiling of L/k); the parts are, in index order 1..N, the part indicator
followed by the i-th segment of the escaped text; every segment has length
at most k; and the segments concatenated in order give back the escaped
text. -/
theorem C5_oversize_split (t : Str) (k : Nat) (hk : 0 < k)
    (hlong : k < (escapeQuotes t).length) :
    (prepare_message_for_csv (some t) k).length = ((escapeQuotes t).length + k - 1) / k ∧
    prepare_message_for_csv (some t) k =
      (List.range (((escapeQuotes t).length + k - 1) / k)).map (fun i =>
        partIndicator (i + 1) (((escapeQuotes t).length + k - 1) / k)
          ++ ((escapeQuotes t).drop (i * k)).take k) ∧
    ((List.range (((escapeQuotes t).length + k - 1) / k)).map (fun i =>
        ((escapeQuotes t).drop (i * k)).take k)).flatten = escapeQuotes t ∧
    (List.range (((escapeQuotes t).length + k - 1) / k)).all (fun i =>
        decide ((((escapeQuotes t).drop (i * k)).take k).length ≤ k)) = true := by
  refine ⟨?_, prepare_of_long t k hlong, ?_, ?_⟩
  · rw [prepare_of_long t k hlong]
    simp
  · rw [chunks_flatten]
    exact List.take_of_length_le (le_ceil_mul _ _ hk)
  · rw [List.all_eq_true]
    intro i hi
    rw [decide_eq_true_eq, List.length_take]
    exact min_le_left _ _

/-- Witness for C5: a seven-character text with threshold 3 splits into
three parts. -/
theorem C5_oversize_split_witness :
    (0 < 3 ∧ 3 < (escapeQuotes (str "aaaaaaa")).length) ∧
    ((prepare_message_for_csv (some (str "aaaaaaa")) 3).length
        = ((escapeQuotes (str "aaaaaaa")).length + 3 - 1) / 3 ∧
      prepare_message_for_csv (some (str "aaaaaaa")) 3 =
        (List.range (((escapeQuotes (str "aaaaaaa")).length + 3 - 1) / 3)).map (fun i =>
          partIndicator (i + 1) (((escapeQuotes (str "aaaaaaa")).length + 3 - 1) / 3)
            ++ ((escapeQuotes (str "aaaaaaa")).drop (i * 3)).take 3) ∧
      ((List.range (((escapeQuotes (str "aaaaaaa")).length + 3 - 1) / 3)).map (fun i =>
          ((escapeQuotes (str "aaaaaaa")).drop (i * 3)).take 3)).flatten
        = escapeQuotes (str "aaaaaaa") ∧
      (List.range (((escapeQuotes (str "aaaaaaa")).length + 3 - 1) / 3)).all (fun i =>
          decide ((((escapeQuotes (str "aaaaaaa")).drop (i * 3)).take 3).length ≤ 3)) = true) :=
  ⟨⟨by decide, by decide⟩, C5_oversize_split (str "aaaaaaa") 3 (by decide) (by decide)⟩

/-- Claim C4 (amended): when an oversized message is split, the parts are
emitted consecutively in index order 1..N, each part being its part
indicator followed by a segment of at most `max_length` characters; the
bound holds for the segment excluding the prefix, so a part with its prefix
may exceed the configured maximum by the prefix length (see the
counterexample). -/
theorem C4_split_parts (t : Str) (k : Nat) (hlong : k < (escapeQuotes t).length) :
    prepare_message_for_csv (some t) k =
      (List.range (((escapeQuotes t).length + k - 1) / k)).map (fun i =>
        partIndicator (i + 1) (((escapeQuotes t).length + k - 1) / k)
          ++ ((escapeQuotes t).drop (i * k)).take k) ∧
    (List.range (((escapeQuotes t).length + k - 1) / k)).all (fun i =>
        decide ((((escapeQuotes t).drop (i * k)).take k).length ≤ k)) = true := by
  refine ⟨prepare_of_long t k hlong, ?_⟩
  rw [List.all_eq_true]
  intro i hi
  rw [decide_eq_true_eq, List.length_take]
  exact min_le_left _ _

/-- Witness for the amended C4: a six-character text with threshold 5. -/
theorem C4_split_parts_witness :
    (5 < (escapeQuotes (str "aaaaaa")).length) ∧
    (prepare_message_for_csv (some (str "aaaaaa")) 5 =
      (List.range (((escapeQuotes (str "aaaaaa")).length + 5 - 1) / 5)).map (fun i =>
        partIndicator (i + 1) (((escapeQuotes (str "aaaaaa")).length + 5 - 1) / 5)
          ++ ((escapeQuotes (str "aaaaaa")).drop (i * 5)).take 5) ∧
      (List.range (((escapeQuotes (str "aaaaaa")).length + 5 - 1) / 5)).all (fun i =>
        decide ((((escapeQuotes (str "aaaaaa")).drop (i * 5)).take 5).length ≤ 5)) = true) :=
  ⟨by decide, C4_split_parts (str "aaaaaa") 5 (by decide)⟩

/-- Claim C4 counterexample: with the default maximum length 4000, a
message of 4001 identical characters is split, and its first emitted part —
counting the `[Part 1/2] ` prefix — has length 4011, exceeding the
configured maximum. -/
theorem C4_counterexample :
    ((prepare_message_for_csv (some (List.replicate 4001 'a')) 4000).getD 0 []).length = 4011 ∧
    ¬ ((prepare_message_for_csv (some (List.replicate 4001 'a')) 4000).getD 0 []).length ≤ 4000 := by
  have he : escapeQuotes (List.replicate 4001 'a') = List.replicate 4001 'a' :=
    escapeQuotes_replicate_of_ne 4001 'a' (by decide)
  have hlong : (4000 : Nat) < (escapeQuotes (List.replicate 4001 'a')).length := by
    rw [he, List.length_replicate]
    omega
  have h := prepare_of_long (List.replicate 4001 'a') 4000 hlong
  rw [he, List.length_replicate] at h
  norm_num at h
  rw [h]
  have hr : List.range 2 = [0, 1] := rfl
  rw [hr]
  simp only [List.map_cons, List.map_nil, List.getD_cons_zero]
  have hp : (partIndicator (0 + 1) 2).length = 11 := by decide
  constructor
  · rw [List.length_append, hp, List.length_replicate]
    norm_num
  · rw [List.length_append, hp, List.length_replicate]
    norm_num

/-- Claim C8 (amended): for any message text whose CSV-escaped form has
length at most the threshold, the extract→escape→split pipeline yields
exactly one part, equal to the CSV-escaped text. -/
theorem C8_short_roundtrip (t : Str) (k : Nat) (h : (escapeQuotes t).length ≤ k) :
    prepare_message_for_csv (some (process_message_content (msgOfText t))) k
      = [escapeQuotes t] := by
  rw [process_msgOfText]
  by_cases ht : t = []
  · subst ht
    rfl
  · exact prepare_of_short t k ht h

/-- Witness for the amended C8: a short text with an embedded quote. -/
theorem C8_short_roundtrip_witness :
    ((escapeQuotes (str "hi \"there\"")).length ≤ 4000) ∧
    prepare_message_for_csv (some (process_message_content (msgOfText (str "hi \"there\"")))) 4000
      = [escapeQuotes (str "hi \"there\"")] :=
  ⟨by decide, C8_short_roundtrip (str "hi \"there\"") 4000 (by decide)⟩

/-- Claim C8 counterexample: a text of 4000 double-quote characters has
length 4000 ≤ the default threshold 4000, yet its escaped form has length
8000 and the pipeline yields two parts, not one. -/
theorem C8_counterexample :
    (List.replicate 4000 '"').length ≤ 4000 ∧
    (prepare_message_for_csv
        (some (process_message_content (msgOfText (List.replicate 4000 '"')))) 4000).length
      = 2 := by
  constructor
  · rw [List.length_replicate]
  · rw [process_msgOfText]
    have he := escapeQuotes_replicate_quote 4000
    have hlong : (4000 : Nat) < (escapeQuotes (List.replicate 4000 '"')).length := by
      rw [he, List.length_replicate]
      omega
    rw [prepare_of_long _ _ hlong, he, List.length_replicate]
    simp only [List.length_map, List.length_range]

/-- Claim C6 (amended): for every room that has a name or participant
usernames, the channel slug stored in the CSV-phase room map equals the
name of the room-export entry; in the fallback case the room map stores
`dm-<id>` unslugged while the entry slugs it, so the two can disagree (see
the counterexample). -/
theorem C6_room_slug_agree (r : RCRoom) (is_private : Bool)
    (h : r.name.isSome ∨ r.usernames.isSome) :
    room_map_value r = (make_room_entry r is_private).name := by
  unfold room_map_value make_room_entry
  cases hn : r.name with
  | some n => rfl
  | none =>
    cases hu : r.usernames with
    | some us => rfl
    | none =>
      rw [hn, hu] at h
      simp at h

/-- Witness for the amended C6: a room named General. -/
theorem C6_room_slug_agree_witness :
    (genRoom.name.isSome ∨ genRoom.usernames.isSome) ∧
    room_map_value genRoom = (make_room_entry genRoom false).name :=
  ⟨by decide, C6_room_slug_agree genRoom false (by decide)⟩

/-- Claim C6 counterexample: for the nameless, username-less room with id
`A`, the CSV-phase room map stores `dm-A` while the room-export entry is
named `dm-a` (slugged), so the two disagree. -/
theorem C6_counterexample :
    room_map_value dmRoomA = str "dm-A" ∧
    (make_room_entry dmRoomA true).name = str "dm-a" ∧
    room_map_value dmRoomA ≠ (make_room_entry dmRoomA true).name := by decide

/-- Claim C7 (code bug): the sort key of a message lacking `ts` follows the
`datetime.datetime.min` fallback, which raises `AttributeError` under the
module's `from datetime import datetime` import, so sorting a corpus
containing such a message raises instead of placing it first; a message
with a timestamp yields its timestamp. -/
theorem C7_sort_key_raises :
    messageSortKeyE msgNoTs
      = Except.error (str "AttributeError: type object datetime has no attribute datetime") ∧
    messageSortKeyE (msgOfText (str "hello")) = Except.ok 42 := ⟨rfl, rfl⟩

/-- Claim C1 (code bug): the spec-example message is escaped twice — once by
`prepare_message_for_csv` and again by the `csv.QUOTE_MINIMAL` writer — so
the emitted row holds the embedded quotes quadrupled, not doubled, and
differs from the row the claim states. -/
theorem C1_row_double_escaped :
    (csvRowsForMessage [(str "R", str "general")] [(str "u1", str "bob")]
        (msgOfText (str "hi \"there\""))).map csvRenderRow
      = [str "42,general,bob,\"hi \"\"\"\"there\"\"\"\"\""] ∧
    str "42,general,bob,\"hi \"\"\"\"there\"\"\"\"\"" ≠ str "42,general,bob,\"hi \"\"there\"\"\"" := by
  decide

/-- Claim C2 (code bug): the chunk writer joins the serialized records with
the literal two-character sequence backslash-n (the source writes the
escaped string), not with newline characters: the file content of a
two-message batch holds both records with no newline character anywhere, so
the records are not one per line.  The batch file names do run from index
1. -/
theorem C2_literal_backslash_n :
    (jsonRecordsForChunk [(str "R", str "general")] [] []
        [msgOfText (str "a"), msgOfText (str "b")]).1.length = 2 ∧
    jsonChunkFileContent ((jsonRecordsForChunk [(str "R", str "general")] [] []
        [msgOfText (str "a"), msgOfText (str "b")]).1)
      = str "\x7b\"timestamp\": 42, \"channel\": \"general\", \"username\": \"bob\", \"text\": \"a\"\x7d\\n\x7b\"timestamp\": 42, \"channel\": \"general\", \"username\": \"bob\", \"text\": \"b\"\x7d\\n" ∧
    '\n' ∉ jsonChunkFileContent ((jsonRecordsForChunk [(str "R", str "general")] [] []
        [msgOfText (str "a"), msgOfText (str "b")]).1) ∧
    jsonChunkFileName 0 1000 = str "messages_1.json" ∧
    jsonChunkFileName 1000 1000 = str "messages_2.json" := by decide

/-- Claim C3 counterexample: a retrieved chunk consisting of one message
lacking its timestamp produces no JSON record, yet the Phase 4 processed
counter — reported at the end as the number of messages exported to JSON —
advances by 1 for it, so the skipped message is counted in that total. -/
theorem C3_counterexample :
    (jsonRecordsForChunk [] [] [] [msgNoTs]).1 = [] ∧
    (jsonRecordsForChunk [] [] [] [msgNoTs]).2 = 1 := by decide

/-- Claim C3 (amended): a message missing its room reference, author
reference or timestamp produces no CSV row and no JSON record and does not
advance the CSV row counter; the Phase 4 processed count, however, advances
by the full length of each retrieved chunk, so it does count the skipped
messages. -/
theorem C3_skip_policy (room_map username_map email_map : List (Str × Str)) (msg : RCMessage)
    (h : msg.rid = none ∨ msg.u = none ∨ msg.ts = none) (chunk : List RCMessage) :
    csvRowsForMessage room_map username_map msg = [] ∧
    csvPhase room_map username_map [msg] = ([], 0) ∧
    jsonLineStep room_map username_map email_map [] msg = [] ∧
    (jsonRecordsForChunk room_map username_map email_map [msg]).1 = [] ∧
    (jsonRecordsForChunk room_map username_map email_map chunk).2 = chunk.length := by
  have hrows : csvRowsForMessage room_map username_map msg = [] := by
    unfold csvRowsForMessage
    cases hr : msg.rid <;> cases hu : msg.u <;> cases hts : msg.ts <;> simp_all
  have hline : jsonLineStep room_map username_map email_map [] msg = [] := by
    unfold jsonLineStep
    cases hr : msg.rid <;> cases hu : msg.u <;> cases hts : msg.ts <;> simp_all
  refine ⟨hrows, ?_, hline, ?_, rfl⟩
  · simp [csvPhase, hrows]
  · simp [jsonRecordsForChunk, hline]

/-- Witness for the amended C3 at a concrete chunk. -/
theorem C3_skip_policy_witness :
    (msgNoTs.rid = none ∨ msgNoTs.u = none ∨ msgNoTs.ts = none) ∧
    (csvRowsForMessage [] [] msgNoTs = [] ∧
      csvPhase [] [] [msgNoTs] = ([], 0) ∧
      jsonLineStep [] [] [] [] msgNoTs = [] ∧
      (jsonRecordsForChunk [] [] [] [msgNoTs]).1 = [] ∧
      (jsonRecordsForChunk [] [] [] [msgNoTs, msgOfText (str "a")]).2
        = [msgNoTs, msgOfText (str "a")].length) :=
  ⟨by decide, C3_skip_policy [] [] [] msgNoTs (by decide) [msgNoTs, msgOfText (str "a")]⟩

/-- Claim C10: a message with room, author and timestamp whose extracted
content is empty — and likewise an absent text, Python `None` — is prepared
as exactly one empty part, so the message emits exactly one CSV row whose
text field is empty instead of being dropped. -/
theorem C10_empty_content_one_row (room_map username_map : List (Str × Str)) (msg : RCMessage)
    (rid : Str) (u : UserRef) (ts : Int)
    (hrid : msg.rid = some rid) (hu : msg.u = some u) (hts : msg.ts = some ts)
    (hempty : process_message_content msg = []) :
    prepare_message_for_csv none 4000 = [[]] ∧
    prepare_message_for_csv (some []) 4000 = [[]] ∧
    (csvRowsForMessage room_map username_map msg).length = 1 ∧
    (csvRowsForMessage room_map username_map msg).map CsvRow.text = [[]] := by
  refine ⟨rfl, rfl, ?_, ?_⟩ <;>
    · unfold csvRowsForMessage
      rw [hrid, hu, hts, hempty]
      rfl

/-- Witness for C10: a message whose text body is absent. -/
theorem C10_empty_content_one_row_witness :
    (emptyMsg.rid = some (str "R") ∧ emptyMsg.u = some ⟨some (str "u1"), some (str "bob")⟩ ∧
      emptyMsg.ts = some 42 ∧ process_message_content emptyMsg = []) ∧
    (prepare_message_for_csv none 4000 = [[]] ∧
      prepare_message_for_csv (some []) 4000 = [[]] ∧
      (csvRowsForMessage [] [] emptyMsg).length = 1 ∧
      (csvRowsForMessage [] [] emptyMsg).map CsvRow.text = [[]]) :=
  ⟨by decide, C10_empty_content_one_row [] [] emptyMsg (str "R")
      ⟨some (str "u1"), some (str "bob")⟩ 42 rfl rfl rfl rfl⟩

theorem ok_bind {α β : Type} (x : α) (g : α → Except Str β) :
    (Except.ok x >>= g : Except Str β) = g x := rfl

theorem pure_ok {α : Type} (x : α) : (pure x : Except Str α) = Except.ok x := rfl

theorem ok_ite {α : Type} (c : Prop) [Decidable c] (a b : α) :
    (if c then Except.ok a else Except.ok b : Except Str α) = Except.ok (if c then a else b) := by
  split_ifs <;> rfl

theorem foldlM_ok {α β : Type} (fE : β → α → Except Str β) (f : β → α → β)
    (hf : ∀ b a, fE b a = Except.ok (f b a)) :
    ∀ (l : List α) (b : β), List.foldlM fE b l = Except.ok (List.foldl f b l) := by
  intro l
  induction l with
  | nil =>
    intro b
    rfl
  | cons a l ih =>
    intro b
    rw [List.foldlM_cons, hf, ok_bind, ih, List.foldl_cons]

theorem reactionStepE_ok (acc : List Str) (p : Str × Reaction) :
    reactionStepE acc p = Except.ok (reactionStep acc p) := by
  cases hu : p.2.usernames <;>
    simp [reactionStepE, reactionStep, hu, pySubscript, ok_bind, pure_ok]

theorem attachmentStepE_ok (content : Str) (a : Attachment) :
    attachmentStepE content a = Except.ok (attachmentStep content a) := by
  cases hd : a.description with
  | none =>
    cases ht : a.title <;>
      simp [attachmentStepE, attachmentStep, hd, ht, pyGet, pySubscript, ok_bind, pure_ok]
  | some d =>
    by_cases hde : d = []
    · subst hde
      cases ht : a.title <;>
        simp [attachmentStepE, attachmentStep, hd, ht, pyGet, pySubscript, ok_bind, pure_ok]
    · cases hmd : a.descriptionMd <;>
        simp [attachmentStepE, attachmentStep, hd, hmd, hde, pyGet, pySubscript, ok_bind, pure_ok]

/-- Claim C9: on every message document — whatever combination of the
optional fields (text body, mentions, attachments with or without
description, title or rich-mention markup, file, files, reactions) is
absent — the subscript-instrumented content extractor returns a value and
never an error, and the value is exactly the single string (with embedded
newlines between appended lines) that the pure extractor builds. -/
theorem attachmentsBlockE_ok (v : Option (List Attachment)) (content : Str) :
    attachmentsBlockE v content = Except.ok (match v with
      | some attachments =>
        if attachments ≠ [] then List.foldl attachmentStep content attachments else content
      | none => content) := by
  cases v with
  | none => rfl
  | some attachments =>
    by_cases ha : attachments = []
    · subst ha
      rfl
    · simp [attachmentsBlockE, pySubscript, ok_bind, pure_ok, ha,
        foldlM_ok attachmentStepE attachmentStep attachmentStepE_ok]

theorem filesBlockE_ok (vf : Option FileInfo) (vfs : Option (List FileInfo)) (content : Str) :
    filesBlockE vf vfs content = Except.ok (match vf with
      | some file_info =>
        (if content ≠ [] then content ++ ['\n'] else content)
          ++ str "[File: " ++ pyGet file_info.name [] ++ str "]"
      | none =>
        match vfs with
        | some files => if files ≠ [] then List.foldl fileStep content files else content
        | none => content) := by
  cases vf <;> cases vfs <;>
    simp [filesBlockE, pySubscript, ok_bind, pure_ok, ok_ite]

theorem reactionsBlockE_ok (v : Option (List (Str × Reaction))) (content : Str) :
    reactionsBlockE v content = Except.ok (match v with
      | some reactions =>
        if reactions ≠ [] then
          let reactions_text := List.foldl reactionStep [] reactions
          if reactions_text ≠ [] then
            (if content ≠ [] then content ++ ['\n'] else content)
              ++ str "[Reactions: " ++ pyJoin (str " | ") reactions_text ++ str "]"
          else content
        else content
      | none => content) := by
  cases v with
  | none => rfl
  | some reactions =>
    by_cases hre : reactions = []
    · subst hre
      rfl
    · simp [reactionsBlockE, pySubscript, ok_bind, pure_ok, ok_ite, hre,
        foldlM_ok reactionStepE reactionStep reactionStepE_ok]

/-- Claim C9: on every message document — whatever combination of the
optional fields (text body, mentions, attachments with or without
description, title or rich-mention markup, file, files, reactions) is
absent — the subscript-instrumented content extractor returns a value and
never an error, and the value is exactly the single string (with embedded
newlines between appended lines) that the pure extractor builds. -/
theorem C9_extractor_never_raises (msg : RCMessage) :
    process_message_contentE msg = Except.ok (process_message_content msg) := by
  unfold process_message_contentE process_message_content
  simp only [attachmentsBlockE_ok, ok_bind, filesBlockE_ok, reactionsBlockE_ok, pure_ok]
